import Mathlib

/-!
Verification of the hierarchical listing reconciler
(`Client.list_files` in `gcs_jupyter_plugin/services/gcs.py`).

The embedding models the function body line by line:

* timestamps (`datetime` values) are naturals (`Time`), with `Option Time`
  for nullable `updated` / `time_created` fields; at the wire boundary the
  code maps `None` to the empty string, so `none` here stands for `""`;
* the object-store client is an oracle `Store` mapping
  (bucket, prefix, delimiter) to either a raw listing or a raised store
  exception; `list_blobs(bucket, prefix=prefix, delimiter="/")` is the call
  with delimiter `some slashStr` and `list_blobs(bucket, prefix=prefix)` the
  call with delimiter `none`;
* Python exceptions are the `Except PyErr` monad: `listFilesBody` is the
  `try:` block, and `list_files` adds the `except Exception: return []`
  handler, whose result type `LFResult` distinguishes the success dict from
  the `[]` returned on error;
* the Python dict `prefix_latest_updated` is an association list whose
  stored values may themselves be `None` (the code stores `blob.updated`
  unconditionally when the key is absent), hence values of type
  `Option Time`;
* `blob.name[len(prefix or ''):]` and `relative_name.split('/', 1)` are
  modelled on the character list of the name, matching Python's
  code-point slicing and first-occurrence split.
-/

namespace GcsListFiles

/-- Timestamps, totally ordered like `datetime` values. -/
abbrev Time := Nat

/-- One object returned by a listing call (`google.cloud.storage.Blob`):
`name`, nullable `time_created` and `updated`, `size`, `content_type`. -/
structure Blob where
  name : String
  timeCreated : Option Time := none
  updated : Option Time := none
  size : Nat := 0
  contentType : String := ""
deriving DecidableEq, Repr

/-- The raw result of one `list_blobs` call: the iterated objects and the
`blobs.prefixes` set (as the list in its iteration order). -/
structure RawListing where
  items : List Blob
  prefixes : List String
deriving DecidableEq, Repr

/-- A Python exception inside `list_files`: either an exception raised by the
store client (auth failure, network failure, bucket not found, ...) or the
`TypeError` raised by `None` in an order comparison / string concatenation. -/
inductive PyErr where
  | storeError (msg : String)
  | typeError
deriving DecidableEq, Repr

/-- The store oracle: the response of `client.list_blobs(bucket, prefix,
delimiter)` for each argument triple.  `Except.error` means the client call
raises. -/
abbrev Store := String → Option String → Option String → Except PyErr RawListing

/-- The delimiter string `"/"` used by the shallow listing call. -/
def slashStr : String := "/"

/-- `prefix or ''`: Python coalesces a `None` (and an empty) prefix to `''`. -/
def pyPrefixOrEmpty : Option String → String
  | none => ""
  | some s => s

/-- `cs` split at the first `'/'`: `some (before, after)` when a slash
occurs, `none` otherwise.  `relative_name.split('/', 1)` yields a
two-element list exactly when this is `some`, and `parts[0]` is the first
component. -/
def breakSlash : List Char → Option (List Char × List Char)
  | [] => none
  | c :: rest =>
    if c = '/' then some ([], rest)
    else
      match breakSlash rest with
      | none => none
      | some (a, b) => some (c :: a, b)

/-- The running-maximum dict `prefix_latest_updated`.  Values are
`Option Time` because the code stores `blob.updated` unconditionally when
the key is new, which may store `None`. -/
abbrev TsDict := List (String × Option Time)

/-- `key in dict` / `dict[key]`: `some v` when the key is present with
stored value `v` (itself possibly `none`). -/
def dictLookup (d : TsDict) (k : String) : Option (Option Time) :=
  (d.find? (fun kv => kv.1 = k)).map (·.2)

/-- `dict[key] = value`: overwrite when present, append when absent. -/
def dictInsert (d : TsDict) (k : String) (v : Option Time) : TsDict :=
  if d.any (fun kv => kv.1 = k) then
    d.map (fun kv => if kv.1 = k then (k, v) else kv)
  else d ++ [(k, v)]

/-- One iteration of the deep-listing loop (gcs.py lines 250-257):

```
relative_name = blob.name[len(prefix or ''):]
parts = relative_name.split('/', 1)
if len(parts) > 1:
    subdirectory = prefix + parts[0] + '/'
    if subdirectory in blobs.prefixes:
        if subdirectory not in prefix_latest_updated or
           (blob.updated and prefix_latest_updated[subdirectory] < blob.updated):
            prefix_latest_updated[subdirectory] = blob.updated
```

`prefix + parts[0]` raises `TypeError` when `prefix` is `None`, and
`prefix_latest_updated[subdirectory] < blob.updated` raises `TypeError`
when the stored value is `None` and `blob.updated` is not. -/
def updateStep (shPrefixes : List String) (p : Option String)
    (d : TsDict) (b : Blob) : Except PyErr TsDict :=
  let relativeName := b.name.data.drop (pyPrefixOrEmpty p).data.length
  match breakSlash relativeName with
  | none => Except.ok d
  | some (firstSeg, _) =>
    match p with
    | none => Except.error PyErr.typeError
    | some ps =>
      let subdirectory : String := ⟨ps.data ++ firstSeg ++ ['/']⟩
      if subdirectory ∈ shPrefixes then
        match dictLookup d subdirectory with
        | none => Except.ok (dictInsert d subdirectory b.updated)
        | some stored =>
          match b.updated with
          | none => Except.ok d
          | some t =>
            match stored with
            | none => Except.error PyErr.typeError
            | some t0 =>
              if t0 < t then Except.ok (dictInsert d subdirectory (some t))
              else Except.ok d
      else Except.ok d

/-- The deep-listing `for` loop: run `updateStep` over the objects in
order, threading the dict; a raised exception aborts the loop and
propagates. -/
def runUpdates (shPrefixes : List String) (p : Option String) :
    TsDict → List Blob → Except PyErr TsDict
  | d, [] => Except.ok d
  | d, b :: rest =>
    match updateStep shPrefixes p d b with
    | Except.error e => Except.error e
    | Except.ok d2 => runUpdates shPrefixes p d2 rest

/-- The whole deep-listing loop starting from the empty dict
(`prefix_latest_updated = {}`). -/
def buildDict (shPrefixes : List String) (p : Option String)
    (deepItems : List Blob) : Except PyErr TsDict :=
  runUpdates shPrefixes p [] deepItems

/-- One entry of the `subdir_list` output (wire shape
`{"prefixes": {"name": ..., "updatedAt": ...}}`); `updatedAt = none` is the
empty string on the wire. -/
structure PrefixGroup where
  name : String
  updatedAt : Option Time
deriving DecidableEq, Repr

/-- One entry of the `file_list` output (wire shape `{"items": {...}}`);
`none` timestamps are empty strings on the wire. -/
structure FileEntry where
  name : String
  timeCreated : Option Time
  updated : Option Time
  size : Nat
  contentType : String
deriving DecidableEq, Repr

/-- The per-file reshaping of the files loop (gcs.py lines 281-292): every
field is copied from the blob, with no branching on the name. -/
def mkFileEntry (b : Blob) : FileEntry :=
  { name := b.name
    timeCreated := b.timeCreated
    updated := b.updated
    size := b.size
    contentType := b.contentType }

/-- The success dict `{"prefixes": subdir_list, "files": file_list}`. -/
structure ListingResult where
  prefixes : List PrefixGroup
  files : List FileEntry
deriving DecidableEq, Repr

/-- The value `list_files` returns to its caller: the success dict, or the
literal `[]` produced by the `except` handler. -/
inductive LFResult where
  | dict (r : ListingResult)
  | emptyList
deriving DecidableEq, Repr

/-- The timestamp-gathering phase (gcs.py lines 247-257): when the shallow
listing's prefixes set is non-empty, perform the deep listing — the store
call with the same bucket and prefix and no delimiter — and fold the
running-maximum update over its objects; otherwise the dict stays empty and
no second call happens. -/
def dictPhase (store : Store) (bucket : String) (p : Option String)
    (sh : RawListing) : Except PyErr TsDict :=
  if sh.prefixes.isEmpty then Except.ok []
  else
    match store bucket p none with
    | Except.error e => Except.error e
    | Except.ok deep => buildDict sh.prefixes p deep.items

/-- The emission phase (gcs.py lines 259-295): one `PrefixGroup` per shallow
common prefix in iteration order, its `updatedAt` read from the dict (a
missing key and a stored `None` both become `none`, i.e. `""` on the wire),
and one `FileEntry` per direct item in iteration order. -/
def emitResult (sh : RawListing) (d : TsDict) : ListingResult :=
  { prefixes := sh.prefixes.map (fun pref =>
      ({ name := pref, updatedAt := (dictLookup d pref).join } : PrefixGroup))
    files := sh.items.map mkFileEntry }

/-- The `try:` block of `list_files` (gcs.py lines 232-296): shallow listing
with delimiter `"/"`, then the dict phase, then emission; any exception
raised along the way propagates out of the block. -/
def listFilesBody (store : Store) (bucket : String) (p : Option String) :
    Except PyErr ListingResult :=
  match store bucket p (some slashStr) with
  | Except.error e => Except.error e
  | Except.ok sh =>
    match dictPhase store bucket p sh with
    | Except.error e => Except.error e
    | Except.ok d => Except.ok (emitResult sh d)

/-- `list_files` with its `except Exception: return []` handler (gcs.py
lines 298-300): every exception raised inside the body is swallowed and
turned into the empty list, a value of a different shape from the success
dict. -/
def list_files (store : Store) (bucket : String) (p : Option String) :
    LFResult :=
  match listFilesBody store bucket p with
  | Except.ok r => LFResult.dict r
  | Except.error _ => LFResult.emptyList

/-- The sequence of store calls `list_files` performs, as
(bucket, prefix, delimiter) triples, following the control flow: the
shallow call always happens; the deep call happens exactly when the shallow
call succeeded with a non-empty prefixes set. -/
def listFilesCalls (store : Store) (bucket : String) (p : Option String) :
    List (String × Option String × Option String) :=
  match store bucket p (some slashStr) with
  | Except.error _ => [(bucket, p, some slashStr)]
  | Except.ok sh =>
    if sh.prefixes.isEmpty then [(bucket, p, some slashStr)]
    else [(bucket, p, some slashStr), (bucket, p, none)]

/-!  Concrete stores used to instantiate the theorems below. -/

/-- A store whose every call raises (e.g. the bucket does not exist, so the
client raises `NotFound` on the shallow call already). -/
def missingBucketStore : Store :=
  fun _ _ _ => Except.error (PyErr.storeError "bucket not found")

/-- A store for a prefix with no objects under it: the shallow listing
succeeds with no items and no common prefixes. -/
def missingPrefixStore : Store :=
  fun _ _ _ => Except.ok { items := [], prefixes := [] }

/-- A store whose shallow listing succeeds with one common prefix but whose
deep listing raises a network failure. -/
def deepFailStore : Store := fun _ _ d =>
  if d = some slashStr then
    Except.ok { items := [], prefixes := ["pre/sub/"] }
  else Except.error (PyErr.storeError "network failure")

/-- A store whose every call raises an authentication failure. -/
def authFailStore : Store :=
  fun _ _ _ => Except.error (PyErr.storeError "authentication failure")

/-- A store (for requests with prefix `docs/`) where the first deep-listing
object under `docs/sub/` has no `updated` timestamp and a later one is
timestamped: the running-maximum update then compares `None < datetime`. -/
def c1Store : Store := fun _ _ d =>
  if d = some slashStr then
    Except.ok { items := [], prefixes := ["docs/sub/"] }
  else
    Except.ok { items := [{ name := "docs/sub/a" },
                          { name := "docs/sub/b", updated := some 7 }],
                prefixes := [] }

/-- Same failure pattern as `c1Store` with different data, for the
order-comparison claim: under prefix `p/`, object `p/a/x` has no timestamp
and `p/a/y` is updated at 5. -/
def c9Store : Store := fun _ _ d =>
  if d = some slashStr then
    Except.ok { items := [], prefixes := ["p/a/"] }
  else
    Except.ok { items := [{ name := "p/a/x" },
                          { name := "p/a/y", updated := some 5 }],
                prefixes := [] }

/-- A store for a root listing (prefix `None`) with one common prefix and
one nested object. -/
def c10Store : Store := fun _ _ d =>
  if d = some slashStr then
    Except.ok { items := [], prefixes := ["a/"] }
  else
    Except.ok { items := [{ name := "a/x", updated := some 3 }],
                prefixes := [] }

/-- A store (for prefix `p/`) with a zero-size directory-marker object
`p/`, a regular file, two common prefixes and a deep listing mixing
timestamped and untimestamped objects (timestamped ones first, so the
running maximum is well defined). -/
def gStore : Store := fun _ _ d =>
  if d = some slashStr then
    Except.ok { items := [{ name := "p/", size := 0 },
                          { name := "p/f.txt", timeCreated := some 2,
                            updated := some 3, size := 4,
                            contentType := "text/plain" }],
                prefixes := ["p/a/", "p/b/"] }
  else
    Except.ok { items := [{ name := "p/", size := 0 },
                          { name := "p/f.txt", updated := some 3 },
                          { name := "p/a/x", updated := some 5 },
                          { name := "p/a/y", updated := some 9 },
                          { name := "p/a/z" },
                          { name := "p/b/w" }],
                prefixes := [] }

/-- `gStore` with different behaviour on calls `list_files` never makes
(other prefixes), to witness that the result depends only on the two
listing responses. -/
def gStoreVariant : Store := fun b p d =>
  if p = some "other/" then Except.error (PyErr.storeError "unused")
  else gStore b p d

/-- A store whose shallow listing has direct items but no common prefixes. -/
def flatStore : Store := fun _ _ d =>
  if d = some slashStr then
    Except.ok { items := [{ name := "q/f1.txt", updated := some 11, size := 1 },
                          { name := "q/f2.txt", updated := some 12, size := 2 }],
                prefixes := [] }
  else Except.error (PyErr.storeError "never called")

/-- The shallow listing `gStore` returns for prefix `p/`. -/
def shG : RawListing :=
  { items := [{ name := "p/", size := 0 },
              { name := "p/f.txt", timeCreated := some 2, updated := some 3,
                size := 4, contentType := "text/plain" }],
    prefixes := ["p/a/", "p/b/"] }

/-- The success dict `list_files` produces on `gStore` with prefix `p/`. -/
def rG : ListingResult :=
  { prefixes := [{ name := "p/a/", updatedAt := some 9 },
                 { name := "p/b/", updatedAt := none }],
    files := [{ name := "p/", timeCreated := none, updated := none,
                size := 0, contentType := "" },
              { name := "p/f.txt", timeCreated := some 2, updated := some 3,
                size := 4, contentType := "text/plain" }] }

/-!  Helper lemmas shared by the claim theorems. -/

/-- `list_files` returns the success dict exactly when the `try:` block
succeeds with that dict. -/
lemma list_files_dict_iff {store : Store} {b : String} {p : Option String}
    {r : ListingResult} :
    list_files store b p = LFResult.dict r ↔
      listFilesBody store b p = Except.ok r := by
  cases h : listFilesBody store b p <;> simp [list_files, h]

/-- Every exception in the body yields the empty-list return. -/
lemma list_files_error {store : Store} {b : String} {p : Option String}
    {e : PyErr} (h : listFilesBody store b p = Except.error e) :
    list_files store b p = LFResult.emptyList := by
  simp [list_files, h]

/-- When the shallow listing and the dict phase both succeed, the result is
the emission of the shallow listing with the built dict. -/
lemma body_ok_emit {store : Store} {b : String} {p : Option String}
    {sh : RawListing} {r : ListingResult}
    (hsh : store b p (some slashStr) = Except.ok sh)
    (hr : listFilesBody store b p = Except.ok r) :
    ∃ d, r = emitResult sh d := by
  simp only [listFilesBody, hsh] at hr
  cases h : dictPhase store b p sh with
  | error e => rw [h] at hr; cases hr
  | ok d => rw [h] at hr; exact ⟨d, (Except.ok.inj hr).symm⟩

/-- `breakSlash` finds nothing when the list has no slash. -/
lemma breakSlash_eq_none {cs : List Char} (h : '/' ∉ cs) :
    breakSlash cs = none := by
  induction cs with
  | nil => rfl
  | cons c rest ih =>
    have hc : c ≠ '/' := fun hc => h (hc ▸ List.mem_cons_self c rest)
    have hrest : '/' ∉ rest := fun hm => h (List.mem_cons_of_mem c hm)
    simp [breakSlash, hc, ih hrest]

/-- `breakSlash` finds a split when the list has a slash. -/
lemma breakSlash_eq_some {cs : List Char} (h : '/' ∈ cs) :
    ∃ a b, breakSlash cs = some (a, b) := by
  induction cs with
  | nil => cases h
  | cons c rest ih =>
    by_cases hc : c = '/'
    · exact ⟨[], rest, by simp [breakSlash, hc]⟩
    · have hrest : '/' ∈ rest := by
        rcases List.mem_cons.mp h with h1 | h1
        · exact absurd h1.symm hc
        · exact h1
      obtain ⟨a, b, hab⟩ := ih hrest
      exact ⟨c :: a, b, by simp [breakSlash, hc, hab]⟩

/-- With a `None` request prefix, a deep-listing object nested below a
common prefix makes the loop body raise `TypeError` at the
`prefix + parts[0] + '/'` concatenation. -/
lemma updateStep_none_nested {shPrefixes : List String} {d : TsDict}
    {b : Blob} (h : '/' ∈ b.name.data) :
    updateStep shPrefixes none d b = Except.error PyErr.typeError := by
  obtain ⟨a, c, hac⟩ := breakSlash_eq_some h
  have hdrop : b.name.data.drop (pyPrefixOrEmpty none).data.length
      = b.name.data := List.drop_zero b.name.data
  simp only [updateStep, hdrop, hac]

/-- With a `None` request prefix, an unnested deep-listing object leaves
the dict untouched and does not raise. -/
lemma updateStep_none_flat {shPrefixes : List String} {d : TsDict}
    {b : Blob} (h : '/' ∉ b.name.data) :
    updateStep shPrefixes none d b = Except.ok d := by
  have hdrop : b.name.data.drop (pyPrefixOrEmpty none).data.length
      = b.name.data := List.drop_zero b.name.data
  simp only [updateStep, hdrop, breakSlash_eq_none h]

/-- With a `None` request prefix, the deep-listing loop raises as soon as
any nested object occurs. -/
lemma runUpdates_none_error {shPrefixes : List String} {items : List Blob} :
    ∀ d, (∃ b ∈ items, '/' ∈ b.name.data) →
      runUpdates shPrefixes none d items = Except.error PyErr.typeError := by
  induction items with
  | nil => rintro d ⟨b, hb, _⟩; cases hb
  | cons x xs ih =>
    rintro d ⟨b, hb, hsl⟩
    by_cases hx : '/' ∈ x.name.data
    · simp [runUpdates, updateStep_none_nested hx]
    · have hbx : b ∈ xs := by
        rcases List.mem_cons.mp hb with h1 | h1
        · exact absurd (h1 ▸ hsl) hx
        · exact h1
      simp only [runUpdates, updateStep_none_flat hx]
      exact ih d ⟨b, hbx, hsl⟩

/-!  Claim theorems. -/

/-- Claim C1: the spec requires each PrefixGroup's `latestUpdatedAt` to be
the maximum `updatedAt` over the deep-listing objects under that prefix,
treating an absent running maximum as the new minimum.  The code instead
stores the first object's absent timestamp and then evaluates
`None < datetime`, raising `TypeError`, so the whole call returns `[]`
instead of the listing with `latestUpdatedAt = 7` the spec requires. -/
theorem latestUpdated_crash_on_untimestamped_first :
    c1Store "bkt" (some "docs/") (some slashStr) =
      Except.ok { items := [], prefixes := ["docs/sub/"] } ∧
    c1Store "bkt" (some "docs/") none =
      Except.ok { items := [{ name := "docs/sub/a" },
                            { name := "docs/sub/b", updated := some 7 }],
                  prefixes := [] } ∧
    list_files c1Store "bkt" (some "docs/") = LFResult.emptyList ∧
    list_files c1Store "bkt" (some "docs/") ≠
      LFResult.dict { prefixes := [{ name := "docs/sub/", updatedAt := some 7 }],
                      files := [] } := by
  refine ⟨rfl, rfl, rfl, fun h => ?_⟩
  rw [show list_files c1Store "bkt" (some "docs/") = LFResult.emptyList from rfl] at h
  cases h

/-- Claim C2 counterexample: a deep-listing failure after a successful
shallow listing with a non-empty prefixes set does not propagate out of
`list_files`: the call returns the very same `[]` value that a completely
different failure (an authentication failure on the first call) produces,
so the failure is swallowed into an empty result, not surfaced as a
distinguishable failure. -/
theorem store_failure_not_distinguishable :
    deepFailStore "bkt" (some "pre/") (some slashStr) =
      Except.ok { items := [], prefixes := ["pre/sub/"] } ∧
    deepFailStore "bkt" (some "pre/") none =
      Except.error (PyErr.storeError "network failure") ∧
    list_files deepFailStore "bkt" (some "pre/") = LFResult.emptyList ∧
    list_files authFailStore "bkt" (some "pre/") = LFResult.emptyList :=
  ⟨rfl, rfl, rfl, rfl⟩

/-- Claim C2 (amended): a store failure in the deep listing after a
successful shallow listing with non-empty prefixes is caught inside
`list_files`, which returns the empty list `[]` — it neither propagates
the failure nor returns a partially-populated success dict. -/
theorem deep_failure_swallowed (store : Store) (b : String) (p : Option String)
    (sh : RawListing) (e : PyErr)
    (hsh : store b p (some slashStr) = Except.ok sh)
    (hne : sh.prefixes ≠ [])
    (hdeep : store b p none = Except.error e) :
    list_files store b p = LFResult.emptyList := by
  have hempty : sh.prefixes.isEmpty = false := by
    simp [List.isEmpty_iff, hne]
  simp [list_files, listFilesBody, dictPhase, hsh, hdeep, hempty]

theorem deep_failure_swallowed_witness :
    list_files deepFailStore "bkt" (some "pre/") = LFResult.emptyList :=
  deep_failure_swallowed deepFailStore "bkt" (some "pre/")
    { items := [], prefixes := ["pre/sub/"] }
    (PyErr.storeError "network failure") rfl (by simp) rfl

/-- Claim C3: when the shallow listing's common-prefix set is empty the
operation makes exactly one store call and returns an empty prefixes
sequence; when it is non-empty the operation makes exactly two store
calls, the second with the same bucket and prefix and no delimiter. -/
theorem call_counts (store : Store) (b : String) (p : Option String)
    (sh : RawListing)
    (hsh : store b p (some slashStr) = Except.ok sh) :
    (sh.prefixes = [] →
      listFilesCalls store b p = [(b, p, some slashStr)] ∧
      list_files store b p =
        LFResult.dict { prefixes := [], files := sh.items.map mkFileEntry }) ∧
    (sh.prefixes ≠ [] →
      listFilesCalls store b p = [(b, p, some slashStr), (b, p, none)]) := by
  constructor
  · intro h
    constructor
    · simp [listFilesCalls, hsh, h]
    · simp [list_files, listFilesBody, dictPhase, emitResult, hsh, h]
  · intro h
    simp [listFilesCalls, hsh, List.isEmpty_iff, h]

theorem call_counts_witness :
    listFilesCalls flatStore "bkt" (some "q/") =
      [("bkt", some "q/", some slashStr)] ∧
    list_files flatStore "bkt" (some "q/") =
      LFResult.dict { prefixes := [],
                      files := [{ name := "q/f1.txt", timeCreated := none,
                                  updated := some 11, size := 1,
                                  contentType := "" },
                                { name := "q/f2.txt", timeCreated := none,
                                  updated := some 12, size := 2,
                                  contentType := "" }] } ∧
    listFilesCalls gStore "bkt" (some "p/") =
      [("bkt", some "p/", some slashStr), ("bkt", some "p/", none)] := by
  have h1 := (call_counts flatStore "bkt" (some "q/")
    { items := [{ name := "q/f1.txt", updated := some 11, size := 1 },
                { name := "q/f2.txt", updated := some 12, size := 2 }],
      prefixes := [] } rfl).1 rfl
  have h2 := (call_counts gStore "bkt" (some "p/") shG rfl).2 (by simp [shG])
  exact ⟨h1.1, by simpa [mkFileEntry] using h1.2, h2⟩

/-- Claim C4: on success the files sequence is exactly the shallow
listing's direct items, reshaped field by field in order, and the prefixes
sequence carries exactly the shallow common prefixes in order: neither
side leaks into the other. -/
theorem output_shape (store : Store) (b : String) (p : Option String)
    (sh : RawListing) (r : ListingResult)
    (hsh : store b p (some slashStr) = Except.ok sh)
    (hr : list_files store b p = LFResult.dict r) :
    r.files = sh.items.map mkFileEntry ∧
    r.files.map FileEntry.name = sh.items.map Blob.name ∧
    r.prefixes.map PrefixGroup.name = sh.prefixes := by
  obtain ⟨d, rfl⟩ := body_ok_emit hsh (list_files_dict_iff.mp hr)
  refine ⟨rfl, ?_, ?_⟩
  · simp [emitResult, mkFileEntry, Function.comp_def]
  · simp [emitResult, Function.comp_def]

theorem output_shape_witness :
    rG.files = shG.items.map mkFileEntry ∧
    rG.files.map FileEntry.name = shG.items.map Blob.name ∧
    rG.prefixes.map PrefixGroup.name = shG.prefixes :=
  output_shape gStore "bkt" (some "p/") shG rG rfl rfl

/-- Claim C5: the operation is deterministic and idempotent — its result
is a pure function of the two listing responses: any two stores that give
the same answers to the shallow call and to the deep call for the
requested bucket and prefix produce identical results. -/
theorem result_deterministic (σ₁ σ₂ : Store) (b₁ b₂ : String)
    (p : Option String)
    (h1 : σ₁ b₁ p (some slashStr) = σ₂ b₂ p (some slashStr))
    (h2 : σ₁ b₁ p none = σ₂ b₂ p none) :
    list_files σ₁ b₁ p = list_files σ₂ b₂ p := by
  unfold list_files listFilesBody dictPhase
  simp only [h1, h2]

theorem result_deterministic_witness :
    list_files gStore "bkt" (some "p/") =
      list_files gStoreVariant "bkt" (some "p/") :=
  result_deterministic gStore gStoreVariant "bkt" "bkt" (some "p/") rfl rfl

/-- Claim C6: for a missing bucket (the store raises on the shallow call)
the operation does not raise and returns the empty list — a value with
zero file entries and zero prefix entries — and for a missing prefix (the
shallow listing succeeds with no items and no common prefixes) it returns
the success dict with both sequences empty. -/
theorem missing_bucket_or_path_empty (store : Store) (b : String)
    (p : Option String) :
    (∀ msg, store b p (some slashStr) = Except.error (PyErr.storeError msg) →
      list_files store b p = LFResult.emptyList) ∧
    (store b p (some slashStr) = Except.ok { items := [], prefixes := [] } →
      list_files store b p = LFResult.dict { prefixes := [], files := [] }) := by
  constructor
  · intro msg h
    simp [list_files, listFilesBody, h]
  · intro h
    simp [list_files, listFilesBody, dictPhase, emitResult, h]

theorem missing_bucket_or_path_empty_witness :
    list_files missingBucketStore "bkt" (some "gone/") = LFResult.emptyList ∧
    list_files missingPrefixStore "bkt" (some "gone/") =
      LFResult.dict { prefixes := [], files := [] } :=
  ⟨(missing_bucket_or_path_empty missingBucketStore "bkt" (some "gone/")).1
      "bucket not found" rfl,
   (missing_bucket_or_path_empty missingPrefixStore "bkt" (some "gone/")).2
      rfl⟩

/-- Claim C7: an object whose name equals the requested prefix (a
directory-marker object) is not treated specially: it appears in the files
output at its own position, reshaped by the same per-item mapping as every
other direct item, with its zero size preserved. -/
theorem marker_passthrough (store : Store) (b ps : String)
    (sh : RawListing) (r : ListingResult) (k : Nat) (item : Blob)
    (hsh : store b (some ps) (some slashStr) = Except.ok sh)
    (hr : list_files store b (some ps) = LFResult.dict r)
    (hk : sh.items[k]? = some item)
    (hname : item.name = ps)
    (hsize : item.size = 0) :
    r.files[k]? = some (mkFileEntry item) ∧
    (mkFileEntry item).name = ps ∧ (mkFileEntry item).size = 0 := by
  obtain ⟨d, rfl⟩ := body_ok_emit hsh (list_files_dict_iff.mp hr)
  refine ⟨?_, ?_, ?_⟩
  · show ((emitResult sh d).files)[k]? = some (mkFileEntry item)
    simp [emitResult, List.getElem?_map, hk]
  · simp [mkFileEntry, hname]
  · simp [mkFileEntry, hsize]

theorem marker_passthrough_witness :
    rG.files[0]? = some (mkFileEntry { name := "p/", size := 0 }) ∧
    (mkFileEntry { name := "p/", size := 0 }).name = "p/" ∧
    (mkFileEntry { name := "p/", size := 0 }).size = 0 :=
  marker_passthrough gStore "bkt" "p/" shG rG 0 { name := "p/", size := 0 }
    rfl rfl rfl rfl rfl

/-- Claim C8: every exception raised inside `list_files` is caught and
turned into the empty list `[]`; no exception escapes (the result is
always either the success dict or `[]`), and `[]` is a value of a
different shape from every success dict. -/
theorem exceptions_swallowed_to_empty (store : Store) (b : String)
    (p : Option String) :
    ((∃ e, listFilesBody store b p = Except.error e) →
      list_files store b p = LFResult.emptyList) ∧
    (∀ r, list_files store b p = LFResult.dict r →
      listFilesBody store b p = Except.ok r) ∧
    (∀ r, LFResult.emptyList ≠ LFResult.dict r) := by
  refine ⟨?_, ?_, fun r h => by cases h⟩
  · rintro ⟨e, he⟩
    exact list_files_error he
  · intro r hr
    exact list_files_dict_iff.mp hr

theorem exceptions_swallowed_to_empty_witness :
    list_files authFailStore "bkt" none = LFResult.emptyList ∧
    LFResult.emptyList ≠ LFResult.dict { prefixes := [], files := [] } :=
  ⟨(exceptions_swallowed_to_empty authFailStore "bkt" none).1
      ⟨PyErr.storeError "authentication failure", rfl⟩,
   (exceptions_swallowed_to_empty authFailStore "bkt" none).2.2
      { prefixes := [], files := [] }⟩

/-- Claim C9: when the first deep-listing object under a common prefix has
an absent `updatedAt`, the update stores the absent value as the current
maximum (rather than treating it as the minimum); a later timestamped
object under the same prefix then makes the comparison
`prefix_latest_updated[subdirectory] < blob.updated` compare `None`
against a timestamp and raise `TypeError`, so the whole call returns `[]`. -/
theorem none_stored_then_comparison_raises :
    updateStep ["p/a/"] (some "p/") [] { name := "p/a/x" } =
      Except.ok [("p/a/", none)] ∧
    listFilesBody c9Store "bkt" (some "p/") = Except.error PyErr.typeError ∧
    list_files c9Store "bkt" (some "p/") = LFResult.emptyList :=
  ⟨rfl, rfl, rfl⟩

/-- Claim C10: with a `None` prefix argument, the relative-name computation
is guarded (`prefix or ''` coalesces to the empty string) but the
subdirectory reconstruction `prefix + parts[0] + '/'` is not: as soon as
the deep listing contains an object nested below a common prefix, the
concatenation raises `TypeError` and `list_files` returns `[]` for the
whole request. -/
theorem none_concat_raises (store : Store) (b : String)
    (sh deep : RawListing)
    (hsh : store b none (some slashStr) = Except.ok sh)
    (hne : sh.prefixes ≠ [])
    (hdeep : store b none none = Except.ok deep)
    (hnested : ∃ blob ∈ deep.items, '/' ∈ blob.name.data) :
    pyPrefixOrEmpty none = "" ∧
    list_files store b none = LFResult.emptyList := by
  refine ⟨rfl, ?_⟩
  have hempty : sh.prefixes.isEmpty = false := by
    simp [List.isEmpty_iff, hne]
  have hbd : runUpdates sh.prefixes none [] deep.items =
      Except.error PyErr.typeError :=
    runUpdates_none_error [] hnested
  simp [list_files, listFilesBody, dictPhase, buildDict, hsh, hdeep,
    hempty, hbd]

theorem none_concat_raises_witness :
    pyPrefixOrEmpty none = "" ∧
    list_files c10Store "bkt" none = LFResult.emptyList :=
  none_concat_raises c10Store "bkt"
    { items := [], prefixes := ["a/"] }
    { items := [{ name := "a/x", updated := some 3 }], prefixes := [] }
    rfl (by simp) rfl
    ⟨{ name := "a/x", updated := some 3 }, by simp, by decide⟩

end GcsListFiles
